import Mathlib

/-
Verification development for the carddeck-creator repository.

Shallow embedding of the two core components:
- the Batcher (class CardDeck in carddeck.py): field-mapping validation,
  chunking of the record set into fixed-size batches, card construction and
  padding, and the output-extension gate of create_cards;
- the Extractor (class SpotifyGateway in spotify_gateway.py): pagination
  collection and the whole-pass retry loop of __extract_metadata_from_response;
- the helper find_epoch from utils.py.

Conventions: pandas rows are modelled as total maps from column name to a
string value; a Python dict with string keys and values is modelled as an
ordered association list where assignment updates the value in place when
the key already exists and appends otherwise (insertion order semantics);
Python exceptions are modelled with Except; machine arithmetic uses Nat and
Int (the float round trip of int(np.ceil(n / b)) is exact for the record
counts at issue and is modelled as exact ceiling division).
-/

namespace CarddeckCreator

/-- A row of the record set: a total map from column name to scalar value,
as read by row[column] in __batch_data. -/
abbrev Record := String → String

/-- One rendered card: the card_content dict of __batch_data, an ordered map
from template field name to value. -/
abbrev Card := List (String × String)

/-- Python dict assignment d[k] = v for string dicts: if the key is present,
its value is updated keeping the original position, otherwise the pair is
appended at the end (insertion-order semantics of Python dicts). -/
def dictInsert : Card → String → String → Card
  | [], k, v => [(k, v)]
  | (k0, v0) :: d, k, v => if k0 = k then (k, v) :: d else (k0, v0) :: dictInsert d k v

/-- The inner loop of __batch_data building one card:
for i, field in enumerate(template_fields): card_content[field] = row[content_columns[i]].
The index i advances over template_fields while content_columns is read by
position; out-of-range access cannot occur because __init__ has already
checked that both lists have the same length. -/
def buildCardAux (content_columns : List String) (row : Record) :
    List String → Nat → Card → Card
  | [], _, card => card
  | field :: rest, i, card =>
      buildCardAux content_columns row rest (i + 1)
        (dictInsert card field (row (content_columns.getD i "")))

/-- Build the card for one row of a batch (the card_content dict). -/
def buildCard (template_fields content_columns : List String) (row : Record) : Card :=
  buildCardAux content_columns row template_fields 0 []

/-- The empty placeholder card of __batch_data:
for i, field in enumerate(template_fields): empty_card_content[field] = ''. -/
def emptyCard (template_fields : List String) : Card :=
  template_fields.foldl (fun d field => dictInsert d field "") []

/-- The chunking comprehension of __batch_data:
[self.data[i : i + batch_size] for i in range(0, len(data), batch_size)].
range(0, n, b) enumerates the ceil(n / b) indices 0, b, 2b, ...; the slice
data[i : i + b] is (drop i).take b. Requires b at least one, as the source
does (range with step 0 raises before this point, see mkCardDeck). -/
def chunkList (b : Nat) (data : List Record) : List (List Record) :=
  (List.range' 0 ((data.length + b - 1) / b) b).map (fun i => (data.drop i).take b)

/-- Errors that CardDeck construction can surface, from the Python exceptions
raised in __init__ and __batch_data. -/
inductive DeckError
  | zeroDivision
  | lengthMismatch (n_content : Nat) (n_template : Nat)
  | indexError
deriving DecidableEq

/-- Observable result state of a constructed CardDeck: the n_batches
attribute and the stored batches. -/
structure CardDeck where
  n_batches : Nat
  batches : List (List Card)
deriving DecidableEq

/-- The body of __batch_data: chunk the record set, build one card per row,
and pad the last batch with copies of the empty card up to batch_size.
batches[-1] on the empty list raises IndexError, modelled by the first
branch; the in-place appends to batches[-1] are modelled by replacing the
last element. -/
def batchData (data : List Record) (content_columns template_fields : List String)
    (batch_size : Nat) : Except DeckError (List (List Card)) :=
  let batched_data := chunkList batch_size data
  let batches := batched_data.map
    (fun batch => batch.map (fun row => buildCard template_fields content_columns row))
  if batches = [] then
    .error .indexError
  else if (batches.getLastD []).length < batch_size then
    .ok (batches.dropLast ++
      [batches.getLastD [] ++
        List.replicate (batch_size - (batches.getLastD []).length) (emptyCard template_fields)])
  else
    .ok batches

/-- CardDeck.__init__: computes n_batches = int(np.ceil(len(data) / batch_size))
(a ZeroDivisionError for batch_size = 0 is raised by the division itself),
then checks len(content_columns) == len(template_fields) raising a ValueError
that carries both lengths, then runs __batch_data. The card_template argument
is only consumed later by create_cards and is not part of this state. -/
def mkCardDeck (data : List Record) (content_columns template_fields : List String)
    (batch_size : Nat) : Except DeckError CardDeck :=
  if batch_size = 0 then .error .zeroDivision
  else
    let n_batches := (data.length + batch_size - 1) / batch_size
    if content_columns.length ≠ template_fields.length then
      .error (.lengthMismatch content_columns.length template_fields.length)
    else
      match batchData data content_columns template_fields batch_size with
      | .error e => .error e
      | .ok batches => .ok ⟨n_batches, batches⟩

/-- Python str.lower restricted to the ASCII case mapping, applied
character by character as str.lower does on the filenames at issue. -/
def pyLower (s : String) : String :=
  String.mk (s.data.map Char.toLower)

/-- Python str.endswith for a single string argument. -/
def pyEndsWith (s pat : String) : Bool :=
  List.isSuffixOf pat.data s.data

/-- Index of the last occurrence of a character, or -1 when absent
(Python str.rfind for a single character). -/
def rfindChar (c : Char) : List Char → Int
  | [] => -1
  | x :: xs =>
      let r := rfindChar c xs
      if r ≥ 0 then r + 1 else if x = c then 0 else -1

/-- The extension component of os.path.splitext (posixpath): split at the
last dot after the last slash, unless every character between them is a dot
(leading dots of a hidden file carry no extension). -/
def pySplitextExt (p : String) : String :=
  let s := p.data
  let sepIndex := rfindChar '/' s
  let dotIndex := rfindChar '.' s
  if dotIndex > sepIndex then
    let stem := (s.drop (sepIndex + 1).toNat).take (dotIndex - sepIndex - 1).toNat
    if stem.any (fun ch => ch ≠ '.') then String.mk (s.drop dotIndex.toNat) else ""
  else ""

/-- The configuration error of CardDeck.create_cards: a ValueError naming the
expected extension and the extension part of the offending filename. -/
inductive RenderError
  | invalidExtension (expected : String) (got : String)
deriving DecidableEq

/-- The observable effect of the final file write of create_cards: the path
written and the rendered document text. -/
structure RenderedFile where
  path : String
  content : String
deriving DecidableEq

/-- CardDeck.create_cards: validates that filename.lower() ends with '.html'
before anything is rendered or opened, raising a ValueError carrying the
expected extension and the splitext extension on mismatch; otherwise renders
the batches through the external jinja collaborator (injected here as the
render argument) and writes the document to the filename. -/
def create_cards (render : List (List Card) → String) (deck : CardDeck)
    (filename : String) : Except RenderError RenderedFile :=
  let file_extension := pySplitextExt filename
  if !(pyEndsWith (pyLower filename) ".html") then
    .error (.invalidExtension ".html" file_extension)
  else
    .ok ⟨filename, render deck.batches⟩

/-- The epoch helper of utils.py: a chain of strict threshold comparisons
assigning a decade label, with no branch for the year 1949 itself. -/
def find_epoch (year : Int) : Option String :=
  if year > 2019 then some "2020er"
  else if year > 2009 then some "2010er"
  else if year > 1999 then some "2000er"
  else if year > 1989 then some "90er"
  else if year > 1979 then some "80er"
  else if year > 1969 then some "70er"
  else if year > 1959 then some "60er"
  else if year > 1949 then some "50er"
  else if year < 1949 then some "Oldies"
  else none

/-- Python exceptions arising inside __extract_metadata_from_response:
TypeError from subscripting a None node, IndexError from indexing an empty
artist list, and the ValueError that pandas.DataFrame raises when the
column lists have different lengths. -/
inductive PyError
  | typeError
  | indexError
  | valueError
deriving DecidableEq

/-- One entry of an item's artist list. -/
structure SpotArtist where
  name : String
deriving DecidableEq

/-- The album node of a track; its absence in an item makes
item['track']['album']['release_date'] raise a TypeError. -/
structure SpotAlbum where
  release_date : String
deriving DecidableEq

/-- The track node of a playlist item. -/
structure SpotTrack where
  name : String
  artists : List SpotArtist
  album : Option SpotAlbum
  uri : String
deriving DecidableEq

/-- The added_by node of a playlist item. -/
structure SpotAddedBy where
  id : String
deriving DecidableEq

/-- One item of the playlist response, with the intermediate nodes that the
extraction navigates; a None node is an Option none. -/
structure SpotItem where
  track : Option SpotTrack
  added_by : Option SpotAddedBy
deriving DecidableEq

/-- One page of the paginated playlist response: its item list and the
truthiness of its continuation field response['next']. -/
structure Page where
  items : List SpotItem
  next : Bool
deriving DecidableEq

/-- The pagination loop at the top of __extract_metadata_from_response:
items = response['items']; while response['next']: response = next(response);
items.extend(response['items']). The successor pages the source would hand
out are the list argument; the loop stops as soon as a page carries a falsy
continuation signal. -/
def collectPages (response : Page) : List Page → List SpotItem
  | [] => response.items
  | nextPage :: rest =>
      if response.next then response.items ++ collectPages nextPage rest
      else response.items

/-- The six column lists of the data dict that the extraction loop fills:
keys = number, song, artist, release_date, contributor_id, track_uri.
The dict is created once, before the retry loop. -/
structure ColumnData where
  number : List Nat
  song : List String
  artist : List String
  release_date : List String
  contributor_id : List String
  track_uri : List String
deriving DecidableEq

/-- The freshly created data dict with six empty column lists. -/
def emptyColumns : ColumnData := ⟨[], [], [], [], [], []⟩

/-- The try block body for one item: the six appends in source order, each
navigation step that hits a None node stopping the sequence with a TypeError
after the earlier appends have already happened; an empty artist list raises
an IndexError instead. -/
def processItem (data : ColumnData) (i : Nat) (item : SpotItem) :
    ColumnData × Option PyError :=
  let d1 := { data with number := data.number ++ [i] }
  match item.track with
  | none => (d1, some PyError.typeError)
  | some track =>
    let d2 := { d1 with song := d1.song ++ [track.name] }
    match track.artists.head? with
    | none => (d2, some PyError.indexError)
    | some firstArtist =>
      let d3 := { d2 with artist := d2.artist ++ [firstArtist.name] }
      match track.album with
      | none => (d3, some PyError.typeError)
      | some album =>
        let d4 := { d3 with release_date := d3.release_date ++ [album.release_date] }
        match item.added_by with
        | none => (d4, some PyError.typeError)
        | some adder =>
          let d5 := { d4 with contributor_id := d4.contributor_id ++ [adder.id] }
          ({ d5 with track_uri := d5.track_uri ++ [track.uri] }, none)

/-- One extraction pass: for i, item in enumerate(items, 1) with the
try/except TypeError around the appends. A TypeError is recorded and breaks
the for loop (ok with some error); any other exception propagates out of the
whole method (error); a clean pass returns ok with no error. -/
def extract_pass : ColumnData → Nat → List SpotItem →
    Except PyError (ColumnData × Option PyError)
  | data, _, [] => .ok (data, none)
  | data, i, item :: rest =>
    match processItem data i item with
    | (d, none) => extract_pass d (i + 1) rest
    | (d, some PyError.typeError) => .ok (d, some PyError.typeError)
    | (_, some e) => .error e

/-- The retry loop: while counter < max_iterations, run a pass over the
items the source presents on that attempt; break on a clean pass, retry on a
recorded TypeError. The fuel argument is max_iterations - counter, so fuel 0
is the loop condition failing. Crucially the data accumulated by earlier
aborted passes is carried into the next pass unchanged, exactly as in the
source, where the data dict is created outside the loop. -/
def extract_retry_loop (itemsOf : Nat → List SpotItem) :
    Nat → ColumnData → Nat → Except PyError ColumnData
  | 0, data, _ => .ok data
  | fuel + 1, data, counter =>
    match extract_pass data 1 (itemsOf counter) with
    | .error e => .error e
    | .ok (d, none) => .ok d
    | .ok (d, some _) => extract_retry_loop itemsOf fuel d (counter + 1)

/-- The equal-length condition under which pandas.DataFrame accepts a dict of
column lists; unequal lengths raise a ValueError. -/
def allColumnsSameLength (d : ColumnData) : Bool :=
  (d.song.length == d.number.length) && (d.artist.length == d.number.length) &&
  (d.release_date.length == d.number.length) &&
  (d.contributor_id.length == d.number.length) &&
  (d.track_uri.length == d.number.length)

/-- __extract_metadata_from_response after pagination: run the retry loop on
the item lists the source presents per attempt, then build the DataFrame from
whatever the data dict holds. There is no explicit handling when the retry
ceiling is exhausted: control simply falls through to the DataFrame call. -/
def extract_metadata_from_response (itemsOf : Nat → List SpotItem)
    (max_iterations : Nat) : Except PyError ColumnData :=
  match extract_retry_loop itemsOf max_iterations emptyColumns 0 with
  | .error e => .error e
  | .ok d => if allColumnsSameLength d then .ok d else .error PyError.valueError

/-- A well-formed playlist item whose scalar fields all carry the tag s. -/
def goodItem (s : String) : SpotItem :=
  ⟨some ⟨s, [⟨s⟩], some ⟨s⟩, s⟩, some ⟨s⟩⟩

/-- A malformed playlist item: its album node is None, so navigating
item['track']['album']['release_date'] raises a TypeError. -/
def noAlbumItem (s : String) : SpotItem :=
  ⟨some ⟨s, [⟨s⟩], none, s⟩, some ⟨s⟩⟩

/-- First page of the simulated source when all items are well-formed. -/
def goodPage1 : Page := ⟨[goodItem "t1", goodItem "t2", goodItem "t3"], true⟩

/-- Second and last page of the simulated source. -/
def goodPage2 : Page := ⟨[goodItem "t4", goodItem "t5", goodItem "t6"], false⟩

/-- First page of the simulated source with its second item missing the
album node. -/
def badPage1 : Page := ⟨[goodItem "t1", noAlbumItem "t2", goodItem "t3"], true⟩

/-- The simulated source of the whole-pass retry scenario: two pages of
three items whose second item is malformed on the first attempt, every item
well-formed from the second attempt on. -/
def itemsOfC1 (attempt : Nat) : List SpotItem :=
  if attempt == 0 then collectPages badPage1 [goodPage2]
  else collectPages goodPage1 [goodPage2]

/-- A source that is malformed on every attempt: its single item has a None
track node. -/
def itemsOfC2 (_ : Nat) : List SpotItem := [⟨none, some ⟨"u"⟩⟩]


/-- Record used by the concrete batching scenarios: every column reads "r",
distinct from the empty string of a placeholder card. -/
def wRec : Record := fun _ => "r"

/-- The 22-record input of the batch_size 9 scenario. -/
def wData22 : List Record := List.replicate 22 wRec

/-- Source columns of the concrete batching scenarios. -/
def wCols : List String := ["song", "artist"]

/-- Destination fields of the concrete batching scenarios. -/
def wFields : List String := ["text1", "text2"]

/-- Record whose value under a column is the column name tagged with v,
so that distinct source columns yield distinct card values. -/
def vRec : Record := fun c => String.append "v" c

/-- Concrete renderer standing in for the external jinja collaborator in
the create_cards witnesses. -/
def render0 : List (List Card) → String := fun _ => "document"

/-- Concrete deck used by the create_cards witnesses. -/
def deck0 : CardDeck := ⟨0, []⟩

/-- Specification-side card constructor: the card obtained by folding the
field-to-value pairs of a positional zip into a fresh dict, to be compared
with buildCard, which walks enumerate(template_fields) and indexes
content_columns by position. -/
def cardOfPairs (pairs : List (String × String)) : Card :=
  pairs.foldl (fun d p => dictInsert d p.1 p.2) []

/-- Dropping i elements of a list exposes the element getD reads at i. -/
theorem drop_eq_getD_cons {α : Type} (l : List α) (d : α) :
    ∀ i, i < l.length → l.drop i = l.getD i d :: l.drop (i + 1) := by
  induction l with
  | nil => simp
  | cons x xs ih =>
      intro i hi
      cases i with
      | zero => simp
      | succ j =>
          have hj : j < xs.length := by simpa using hi
          simpa using ih j hj

/-- The enumerate-and-index loop of buildCard agrees with folding the
positional zip of the remaining fields and columns. -/
theorem buildCardAux_eq (content_columns : List String) (row : Record) :
    ∀ (fields : List String) (i : Nat) (card : Card),
      i + fields.length ≤ content_columns.length →
      buildCardAux content_columns row fields i card
        = (fields.zip ((content_columns.drop i).map row)).foldl
            (fun d p => dictInsert d p.1 p.2) card := by
  intro fields
  induction fields with
  | nil => intro i card h; simp [buildCardAux]
  | cons f rest ih =>
      intro i card h
      have hi : i < content_columns.length := by simp at h; omega
      have hdrop := drop_eq_getD_cons content_columns "" i hi
      rw [buildCardAux, ih (i + 1) _ (by simp at h ⊢; omega), hdrop]
      simp

/-- Appending a singleton fixes the last element getLastD reads. -/
theorem getLastD_append_single {α : Type} (l : List α) (a : α) :
    ∀ d, (l ++ [a]).getLastD d = a := by
  induction l with
  | nil => intro d; rfl
  | cons x xs ih => intro d; rw [List.cons_append, List.getLastD_cons]; exact ih x

/-- Every pair of a dict after an insertion was either already present or is
the inserted pair. -/
theorem dictInsert_mem (d : Card) (k v : String) :
    ∀ p ∈ dictInsert d k v, p ∈ d ∨ p = (k, v) := by
  induction d with
  | nil => simp [dictInsert]
  | cons q d ih =>
      intro p hp
      rw [dictInsert] at hp
      split at hp
      · rcases List.mem_cons.mp hp with h | h
        · right; exact h
        · left; exact List.mem_cons_of_mem _ h
      · rcases List.mem_cons.mp hp with h | h
        · left; rw [h]; exact List.mem_cons_self _ _
        · rcases ih p h with h2 | h2
          · left; exact List.mem_cons_of_mem _ h2
          · right; exact h2

/-- Folding empty-string insertions over any dict of empty-string values
keeps every value equal to the empty string. -/
theorem foldl_dictInsert_blank (fields : List String) :
    ∀ d : Card, (∀ p ∈ d, p.2 = "") →
      ∀ p ∈ fields.foldl (fun d f => dictInsert d f "") d, p.2 = "" := by
  induction fields with
  | nil => intro d hd p hp; exact hd p hp
  | cons f rest ih =>
      intro d hd p hp
      rw [List.foldl_cons] at hp
      refine ih (dictInsert d f "") ?_ p hp
      intro q hq
      rcases dictInsert_mem d f "" q hq with h | h
      · exact hd q h
      · rw [h]

/-- Every destination field of the empty placeholder card holds the empty
string. -/
theorem emptyCard_values (template_fields : List String) :
    ∀ p ∈ emptyCard template_fields, p.2 = "" :=
  foldl_dictInsert_blank template_fields [] (by simp)

/-- Structure of the chunking comprehension on a nonempty record set: the
chunks split as full chunks of size b followed by one final chunk of size
between 1 and b, and the chunk count is the ceiling of n / b. -/
theorem chunkList_decomp (b : Nat) (hb : 1 ≤ b) (data : List Record) (hd : data ≠ []) :
    ∃ Cinit lastC, chunkList b data = Cinit ++ [lastC] ∧
      (∀ c ∈ Cinit, c.length = b) ∧
      1 ≤ lastC.length ∧ lastC.length ≤ b ∧
      data.length = Cinit.length * b + lastC.length ∧
      Cinit.length + 1 = (data.length + b - 1) / b := by
  have hn1 : 1 ≤ data.length := List.length_pos.mpr hd
  have hk1 : 1 ≤ (data.length + b - 1) / b :=
    (Nat.le_div_iff_mul_le (by omega)).mpr (by omega)
  obtain ⟨k2, hk2⟩ : ∃ k2, (data.length + b - 1) / b = k2 + 1 :=
    ⟨(data.length + b - 1) / b - 1, by omega⟩
  obtain ⟨m, hm, hdm⟩ : ∃ m, m < b ∧ b * ((data.length + b - 1) / b) + m = data.length + b - 1 :=
    ⟨(data.length + b - 1) % b, Nat.mod_lt _ (by omega), Nat.div_add_mod (data.length + b - 1) b⟩
  rw [hk2] at hdm
  rw [Nat.mul_succ] at hdm
  have hneq : data.length = b * k2 + m + 1 := by omega
  refine ⟨(List.range' 0 k2 b).map (fun i => (data.drop i).take b),
          (data.drop (b * k2)).take b, ?_, ?_, ?_, ?_, ?_, ?_⟩
  · unfold chunkList
    rw [hk2, List.range'_concat]
    simp
  · intro c hc
    obtain ⟨i, hi, hci⟩ := List.mem_map.mp hc
    obtain ⟨j, hj, hij⟩ := List.mem_range'.mp hi
    subst hci
    have hj1 : b * (j + 1) ≤ b * k2 := Nat.mul_le_mul_left b (by omega)
    have hj2 : b * (j + 1) = b * j + b := Nat.mul_succ b j
    simp only [hij, List.length_take, List.length_drop]
    omega
  · simp only [List.length_take, List.length_drop]
    omega
  · simp only [List.length_take, List.length_drop]
    omega
  · simp only [List.length_map, List.length_range', List.length_take, List.length_drop]
    have : k2 * b = b * k2 := Nat.mul_comm k2 b
    omega
  · simp only [List.length_map, List.length_range']
    omega

/-- C1: the spec requires the aborted extraction pass to be discarded so
that the scenario of 2 pages of 3 items, malformed once and then clean,
yields exactly 6 records numbered 1..6. The code instead keeps the partial
appends of the aborted pass, because the data dict is created once outside
the retry loop: after the clean second pass the number column is
[1, 2, 1, 2, 3, 4, 5, 6] and the six column lists have unequal lengths
(8 versus 7), so the DataFrame constructor raises a ValueError instead of
returning six records. -/
theorem spotify_extract_aborted_pass_retained :
    (extract_retry_loop itemsOfC1 5 emptyColumns 0).map ColumnData.number
        = Except.ok [1, 2, 1, 2, 3, 4, 5, 6]
    ∧ (extract_retry_loop itemsOfC1 5 emptyColumns 0).map
        (fun d => (d.song.length, d.release_date.length, d.track_uri.length))
        = Except.ok (8, 7, 7)
    ∧ extract_metadata_from_response itemsOfC1 5 = Except.error PyError.valueError :=
  ⟨rfl, rfl, rfl⟩

/-- C2: the spec requires exhaustion of the retry ceiling to raise a fatal
extraction error carrying the last underlying cause. In the code the while
loop simply exits after max_iterations failed passes and control falls
through to the DataFrame call: the retry loop itself completes without
raising (ok), and the failure that does surface is the incidental pandas
ValueError about unequal column lengths, which does not carry the TypeError
cause. -/
theorem spotify_extract_exhaustion_no_fatal_error :
    extract_retry_loop itemsOfC2 5 emptyColumns 0
        = Except.ok ⟨[1, 1, 1, 1, 1], [], [], [], [], []⟩
    ∧ extract_metadata_from_response itemsOfC2 5 = Except.error PyError.valueError :=
  ⟨rfl, rfl⟩

/-- C3 (amended to record counts of at least 1; the n = 0 case instead
raises an IndexError, see the counterexample): for every positive batch_size
and nonempty record set with an equal-length field mapping, construction
succeeds, n_batches is the ceiling of n / batch_size (stated both as the
division formula the source computes and by the bounds that characterise
the ceiling), there are n_batches stored batches of exactly batch_size
cards each, and the trailing cards of the last batch beyond the real
records are copies of the empty placeholder card, all of whose destination
fields hold the empty string. -/
theorem carddeck_batching_spec (data : List Record) (content_columns template_fields : List String)
    (batch_size : Nat) (hb : 1 ≤ batch_size) (hd : data ≠ [])
    (hlen : content_columns.length = template_fields.length) :
    ∃ deck, mkCardDeck data content_columns template_fields batch_size = .ok deck ∧
      deck.n_batches = (data.length + batch_size - 1) / batch_size ∧
      deck.batches.length = deck.n_batches ∧
      data.length ≤ deck.n_batches * batch_size ∧
      deck.n_batches * batch_size < data.length + batch_size ∧
      (∀ batch ∈ deck.batches, batch.length = batch_size) ∧
      (deck.batches.getLastD []).drop (data.length - (deck.n_batches - 1) * batch_size)
        = List.replicate (deck.n_batches * batch_size - data.length) (emptyCard template_fields) ∧
      (∀ p ∈ emptyCard template_fields, p.2 = "") := by
  obtain ⟨Cinit, lastC, hEq, hinit, hr1, hrb, hsum, hkk⟩ := chunkList_decomp batch_size hb data hd
  have hkb : ((data.length + batch_size - 1) / batch_size) * batch_size
      = Cinit.length * batch_size + batch_size := by
    rw [← hkk, Nat.succ_mul]
  have hk1 : (data.length + batch_size - 1) / batch_size - 1 = Cinit.length := by omega
  have hmain : batchData data content_columns template_fields batch_size =
      .ok (if lastC.length < batch_size
        then (Cinit.map (fun batch => batch.map
              (fun row => buildCard template_fields content_columns row))) ++
            [lastC.map (fun row => buildCard template_fields content_columns row) ++
              List.replicate (batch_size - lastC.length) (emptyCard template_fields)]
        else (Cinit.map (fun batch => batch.map
              (fun row => buildCard template_fields content_columns row))) ++
            [lastC.map (fun row => buildCard template_fields content_columns row)]) := by
    unfold batchData
    rw [hEq]
    simp only [List.map_append, List.map_cons, List.map_nil]
    rw [if_neg (by simp)]
    rw [getLastD_append_single, List.dropLast_concat, List.length_map]
    split
    · rfl
    · rfl
  by_cases hpad : lastC.length < batch_size
  · rw [if_pos hpad] at hmain
    refine ⟨⟨(data.length + batch_size - 1) / batch_size,
      (Cinit.map (fun batch => batch.map
          (fun row => buildCard template_fields content_columns row))) ++
        [lastC.map (fun row => buildCard template_fields content_columns row) ++
          List.replicate (batch_size - lastC.length) (emptyCard template_fields)]⟩,
      ?_, rfl, ?_, ?_, ?_, ?_, ?_, ?_⟩
    · unfold mkCardDeck
      rw [if_neg (by omega), if_neg (fun h => h hlen), hmain]
    · simp only [List.length_append, List.length_map, List.length_cons, List.length_nil]
      omega
    · dsimp only
      omega
    · dsimp only
      omega
    · intro batch hbatch
      rcases List.mem_append.mp hbatch with h | h
      · obtain ⟨c, hc, hcb⟩ := List.mem_map.mp h
        rw [← hcb, List.length_map]
        exact hinit c hc
      · rw [List.mem_singleton.mp h]
        simp only [List.length_append, List.length_map, List.length_replicate]
        omega
    · rw [getLastD_append_single]
      have hcount : data.length -
          ((data.length + batch_size - 1) / batch_size - 1) * batch_size = lastC.length := by
        rw [hk1]; omega
      have hrep : (data.length + batch_size - 1) / batch_size * batch_size - data.length
          = batch_size - lastC.length := by omega
      rw [hcount, hrep]
      exact List.drop_left' (List.length_map _ _)
    · exact emptyCard_values template_fields
  · rw [if_neg hpad] at hmain
    have hreq : lastC.length = batch_size := by omega
    refine ⟨⟨(data.length + batch_size - 1) / batch_size,
      (Cinit.map (fun batch => batch.map
          (fun row => buildCard template_fields content_columns row))) ++
        [lastC.map (fun row => buildCard template_fields content_columns row)]⟩,
      ?_, rfl, ?_, ?_, ?_, ?_, ?_, ?_⟩
    · unfold mkCardDeck
      rw [if_neg (by omega), if_neg (fun h => h hlen), hmain]
    · simp only [List.length_append, List.length_map, List.length_cons, List.length_nil]
      omega
    · dsimp only
      omega
    · dsimp only
      omega
    · intro batch hbatch
      rcases List.mem_append.mp hbatch with h | h
      · obtain ⟨c, hc, hcb⟩ := List.mem_map.mp h
        rw [← hcb, List.length_map]
        exact hinit c hc
      · rw [List.mem_singleton.mp h, List.length_map]
        exact hreq
    · rw [getLastD_append_single]
      have hcount : data.length -
          ((data.length + batch_size - 1) / batch_size - 1) * batch_size
          = (lastC.map (fun row => buildCard template_fields content_columns row)).length := by
        rw [List.length_map, hk1]; omega
      have hrep : (data.length + batch_size - 1) / batch_size * batch_size - data.length = 0 := by
        omega
      rw [hcount, hrep, List.drop_length, List.replicate_zero]
    · exact emptyCard_values template_fields

/-- C3 counterexample: at record count 0 (with a valid mapping and positive
batch_size) construction does not yield a deck at all: chunking produces no
batches and the padding step reads batches[-1], raising an IndexError, which
refutes the claim for n = 0. -/
theorem carddeck_empty_input_counterexample :
    mkCardDeck ([] : List Record) ["song"] ["text1"] 3 = .error DeckError.indexError :=
  rfl

/-- C3 witness: the batching specification instantiated at three records,
batch size two and a one-column mapping. -/
theorem carddeck_batching_spec_witness :
    ∃ deck, mkCardDeck [wRec, wRec, wRec] ["song"] ["text1"] 2 = .ok deck ∧
      deck.n_batches = ([wRec, wRec, wRec].length + 2 - 1) / 2 ∧
      deck.batches.length = deck.n_batches ∧
      [wRec, wRec, wRec].length ≤ deck.n_batches * 2 ∧
      deck.n_batches * 2 < [wRec, wRec, wRec].length + 2 ∧
      (∀ batch ∈ deck.batches, batch.length = 2) ∧
      (deck.batches.getLastD []).drop ([wRec, wRec, wRec].length - (deck.n_batches - 1) * 2)
        = List.replicate (deck.n_batches * 2 - [wRec, wRec, wRec].length) (emptyCard ["text1"]) ∧
      (∀ p ∈ emptyCard ["text1"], p.2 = "") :=
  carddeck_batching_spec [wRec, wRec, wRec] ["song"] ["text1"] 2 (by omega)
    (List.cons_ne_nil _ _) rfl

/-- C4: with batch_size 9 and 22 records, construction yields n_batches = 3,
three stored batches of 9 cards each (27 cards in total), and the last 5
cards of the last batch are the empty placeholder card. -/
theorem carddeck_22_records_batches :
    (mkCardDeck wData22 wCols wFields 9).toOption.map
        (fun d => (d.n_batches, d.batches.map List.length, (d.batches.getLastD []).drop 4))
      = some (3, [9, 9, 9], List.replicate 5 (emptyCard wFields)) :=
  rfl

/-- C5: for an equal-length field mapping, the card built by the
enumerate-and-index loop equals the dict obtained from the positional zip of
destination fields with the record values of the source columns; repeated or
arbitrary destination field names are legitimate, since both sides use the
same dict-assignment semantics. -/
theorem carddeck_card_positional_zip (template_fields content_columns : List String)
    (row : Record) (hlen : content_columns.length = template_fields.length) :
    buildCard template_fields content_columns row
      = cardOfPairs (template_fields.zip (content_columns.map row)) := by
  unfold buildCard cardOfPairs
  have := buildCardAux_eq content_columns row template_fields 0 [] (by omega)
  simpa using this

/-- C5 witness: the positional-zip law at a three-column mapping whose
destination field text1 repeats. -/
theorem carddeck_card_positional_zip_witness :
    (["song", "artist", "number"] : List String).length
      = (["text1", "text2", "text1"] : List String).length
    ∧ buildCard ["text1", "text2", "text1"] ["song", "artist", "number"] vRec
      = cardOfPairs ((["text1", "text2", "text1"] : List String).zip
          ((["song", "artist", "number"] : List String).map vRec)) :=
  ⟨rfl, carddeck_card_positional_zip ["text1", "text2", "text1"]
    ["song", "artist", "number"] vRec rfl⟩

/-- C6: with mapping lists of unequal lengths, construction fails with the
ValueError carrying both lengths, before any batching is attempted (the
result is the length-mismatch error, not any batching outcome). -/
theorem carddeck_length_mismatch_error (data : List Record)
    (content_columns template_fields : List String) (batch_size : Nat)
    (hb : 1 ≤ batch_size) (hne : content_columns.length ≠ template_fields.length) :
    mkCardDeck data content_columns template_fields batch_size
      = .error (.lengthMismatch content_columns.length template_fields.length) := by
  unfold mkCardDeck
  rw [if_neg (by omega), if_pos hne]

/-- C6 witness: three source columns against two destination fields. -/
theorem carddeck_length_mismatch_error_witness :
    mkCardDeck wData22 ["song", "artist", "number"] ["text1", "text2"] 9
      = .error (.lengthMismatch 3 2) :=
  carddeck_length_mismatch_error wData22 ["song", "artist", "number"] ["text1", "text2"] 9
    (by omega) (by decide)

/-- C7: create_cards fails with the configuration error naming the expected
extension and the splitext extension of the filename exactly when the
lowercased filename does not end in .html, before anything is rendered or
written; when the lowercased filename does end in .html the document is
rendered and written to the filename. -/
theorem create_cards_extension_check (render : List (List Card) → String) (deck : CardDeck)
    (filename : String) :
    (create_cards render deck filename
        = .error (.invalidExtension ".html" (pySplitextExt filename))
      ↔ pyEndsWith (pyLower filename) ".html" = false)
    ∧ (pyEndsWith (pyLower filename) ".html" = true →
        create_cards render deck filename = .ok ⟨filename, render deck.batches⟩) := by
  unfold create_cards
  cases h : pyEndsWith (pyLower filename) ".html" <;> simp [h]

/-- C7 witness: the upper-case filename CARDS.HTML passes the check and is
written. -/
theorem create_cards_extension_check_witness :
    create_cards render0 deck0 "CARDS.HTML" = .ok ⟨"CARDS.HTML", render0 deck0.batches⟩ :=
  (create_cards_extension_check render0 deck0 "CARDS.HTML").2 rfl

/-- C8: on a finite chain of pages in which every page except the last
carries a truthy continuation signal and the last a falsy one, the
pagination loop terminates (it is a total function of the chain) and returns
the in-order concatenation of all item lists, starting from the initial
page. -/
theorem pagination_collects_all_pages (first : Page) (rest : List Page)
    (hmid : ∀ q ∈ (first :: rest).dropLast, q.next = true)
    (hlast : ((first :: rest).getLast (List.cons_ne_nil first rest)).next = false) :
    collectPages first rest = ((first :: rest).map Page.items).flatten := by
  induction rest generalizing first with
  | nil => simp [collectPages]
  | cons q qs ih =>
      have hfirst : first.next = true := by
        apply hmid
        simp [List.dropLast_cons₂]
      have hmid2 : ∀ p ∈ (q :: qs).dropLast, p.next = true := by
        intro p hp
        apply hmid
        simp [List.dropLast_cons₂]
        right
        exact hp
      have hlast2 : ((q :: qs).getLast (List.cons_ne_nil q qs)).next = false := by
        rw [← List.getLast_cons (List.cons_ne_nil q qs)]
        exact hlast
      rw [collectPages, if_pos hfirst, ih q hmid2 hlast2]
      simp

/-- C8 witness: a three-page chain with pages of sizes three, three and
three, truthy until the last page. -/
theorem pagination_collects_all_pages_witness :
    collectPages goodPage1 [badPage1, goodPage2]
      = (([goodPage1, badPage1, goodPage2] : List Page).map Page.items).flatten :=
  pagination_collects_all_pages goodPage1 [badPage1, goodPage2] (by decide) (by decide)

/-- C9: on an empty record set with a valid equal-length mapping and a
positive batch size, construction always fails with the IndexError raised by
reading batches[-1] in the padding step; no zero-batch deck is returned. -/
theorem carddeck_empty_input_index_error (content_columns template_fields : List String)
    (batch_size : Nat) (hb : 1 ≤ batch_size)
    (hlen : content_columns.length = template_fields.length) :
    mkCardDeck ([] : List Record) content_columns template_fields batch_size
      = .error DeckError.indexError := by
  have h0 : (batch_size - 1) / batch_size = 0 := Nat.div_eq_of_lt (by omega)
  unfold mkCardDeck batchData chunkList
  rw [if_neg (by omega), if_neg (by omega)]
  simp [h0]

/-- C9 witness: the empty record set with a one-column mapping and batch
size two. -/
theorem carddeck_empty_input_index_error_witness :
    mkCardDeck ([] : List Record) ["artist"] ["text2"] 2 = .error DeckError.indexError :=
  carddeck_empty_input_index_error ["artist"] ["text2"] 2 (by omega) rfl

/-- C10: find_epoch returns a decade label for every year except 1949, where
no branch of the threshold chain applies and the result stays None. -/
theorem find_epoch_none_iff_1949 (year : Int) :
    find_epoch year = none ↔ year = 1949 := by
  unfold find_epoch
  split_ifs <;> simp_all <;> omega

end CarddeckCreator
